import Mathlib

/-!
Shallow embedding of `src/SceneManager.cpp` (CS-330 scene-authoring layer).

Modelling conventions:
* `glm::vec3` / colors are modelled with exact rational components (`ℚ`);
  every `float` literal in the source is modelled by the decimal rational it
  denotes.
* `glm::mat4` is `Matrix (Fin 4) (Fin 4) ℚ`, acting on column vectors by
  `Matrix.mulVec`, exactly as glm matrices act on `vec4` column vectors.
  The source computes `cosf`/`sinf` of the radian-converted angle; the
  embedding passes the cosine and sine of each rotation angle explicitly
  as parameters (`cx sx cy sy cz sz`), so the matrix algebra is exact.
* The texture registry member `m_textureIDs` is a raw C array; it is
  modelled as the unbounded memory `arr : Nat → TEXTURE_ID` together with
  the counter `m_loadedTextures`, so that the unguarded write
  `m_textureIDs[m_loadedTextures] = ...` can be stated at any index.
* Calls into OpenGL and into `ShaderManager` uniform setters are modelled
  as emitted operation traces (`GLTextureOp`, `UniformWrite`).  The
  `ShaderManager*` pointer is `Option Unit`: `none` models a NULL pointer,
  and a dereference of `none` is the explicit outcome `CallResult.nullDeref`.
* `stbi_load` results are modelled by `ImageResult`: decode failure, or a
  successful decode carrying its channel count (width/height never influence
  the registry logic).
-/

namespace SceneManager

/-- Component-wise rational model of glm::vec3. -/
structure Vec3 where
  x : ℚ
  y : ℚ
  z : ℚ
deriving DecidableEq

/-- glm::mat4 as a 4x4 rational matrix acting on column vectors. -/
abbrev Mat4 := Matrix (Fin 4) (Fin 4) ℚ

/-- Anonymous-namespace constant g_ModelName from SceneManager.cpp. -/
def g_ModelName : String := "model"

/-- Anonymous-namespace constant g_ColorValueName from SceneManager.cpp. -/
def g_ColorValueName : String := "objectColor"

/-- Anonymous-namespace constant g_TextureValueName from SceneManager.cpp. -/
def g_TextureValueName : String := "objectTexture"

/-- Anonymous-namespace constant g_UseTextureName from SceneManager.cpp. -/
def g_UseTextureName : String := "bUseTexture"

/-- Anonymous-namespace constant g_UseLightingName from SceneManager.cpp. -/
def g_UseLightingName : String := "bUseLighting"

/-- One texture-registry record: a GPU handle and its tag
(struct TEXTURE_ID of SceneManager.h, fields ID and tag as used by the cpp). -/
structure TEXTURE_ID where
  ID : Nat
  tag : String
deriving DecidableEq

/-- The texture-registry state: the raw array memory m_textureIDs (modelled as
an unbounded index-to-record map so out-of-range indices can be talked about)
and the counter m_loadedTextures. -/
structure TexRegistry where
  arr : Nat → TEXTURE_ID
  loadedTextures : Nat

/-- Modelled from the spec: the header (not under src/) declares
m_textureIDs as a 16-entry array, matching the 16 hardware texture units
("There are up to 16 slots", "Capacity bounded (16 entries)"). -/
def textureArrayCapacity : Nat := 16

/-- A fresh SceneManager has no loaded textures. -/
def emptyTexRegistry : TexRegistry :=
  { arr := fun _ => ⟨0, ""⟩, loadedTextures := 0 }

/-- Result of stbi_load: decode failure, or success with a channel count. -/
inductive ImageResult where
  | fail
  | ok (colorChannels : Nat)

/-- SceneManager::CreateGLTexture, registry-level semantics.  A successful
decode with 3 or 4 channels stores the fresh GPU handle and the tag at index
m_loadedTextures and increments the counter, with no capacity guard; any
other channel count returns false before touching the registry; a decode
failure returns false.  `newTextureID` models the handle produced by
glGenTextures. -/
def CreateGLTexture (img : ImageResult) (newTextureID : Nat) (tag : String)
    (s : TexRegistry) : Bool × TexRegistry :=
  match img with
  | .fail => (false, s)
  | .ok colorChannels =>
    if colorChannels = 3 ∨ colorChannels = 4 then
      (true,
        { arr := fun i =>
            if i = s.loadedTextures then ⟨newTextureID, tag⟩ else s.arr i,
          loadedTextures := s.loadedTextures + 1 })
    else
      (false, s)

/-- The while-loop of SceneManager::FindTextureID: scan indices from `index`
up to m_loadedTextures, returning the ID of the first record whose tag
matches, or -1. -/
def findTextureIDLoop (s : TexRegistry) (tag : String) (index : Nat) : Int :=
  if index < s.loadedTextures then
    if (s.arr index).tag = tag then ((s.arr index).ID : Int)
    else findTextureIDLoop s tag (index + 1)
  else
    (-1 : Int)
termination_by s.loadedTextures - index

/-- SceneManager::FindTextureID: first-match linear scan for the GPU handle. -/
def FindTextureID (s : TexRegistry) (tag : String) : Int :=
  findTextureIDLoop s tag 0

/-- The while-loop of SceneManager::FindTextureSlot: scan indices from
`index` up to m_loadedTextures, returning the index of the first record whose
tag matches, or -1. -/
def findTextureSlotLoop (s : TexRegistry) (tag : String) (index : Nat) : Int :=
  if index < s.loadedTextures then
    if (s.arr index).tag = tag then (index : Int)
    else findTextureSlotLoop s tag (index + 1)
  else
    (-1 : Int)
termination_by s.loadedTextures - index

/-- SceneManager::FindTextureSlot: first-match linear scan for the slot. -/
def FindTextureSlot (s : TexRegistry) (tag : String) : Int :=
  findTextureSlotLoop s tag 0

/-- One GL call issued by texture teardown code. -/
inductive GLTextureOp where
  | genTextures (n : Nat)
  | deleteTextures (n : Nat) (textureID : Nat)
deriving DecidableEq

/-- SceneManager::DestroyGLTextures: for each registered slot it calls
glGenTextures(1, &m_textureIDs[i].ID) — generating a fresh handle into the
stored field — and never issues any delete.  `freshID` models the handles
glGenTextures hands back.  Returns the GL-op trace and the updated registry. -/
def DestroyGLTextures (s : TexRegistry) (freshID : Nat → Nat) :
    List GLTextureOp × TexRegistry :=
  ((List.range s.loadedTextures).map fun _ => GLTextureOp.genTextures 1,
   { s with
      arr := fun i =>
        if i < s.loadedTextures then { s.arr i with ID := freshID i }
        else s.arr i })

/-- Material record (struct OBJECT_MATERIAL): diffuse color, specular color,
shininess exponent and tag. -/
structure OBJECT_MATERIAL where
  diffuseColor : Vec3
  specularColor : Vec3
  shininess : ℚ
  tag : String
deriving DecidableEq

/-- The while-loop of SceneManager::FindMaterial: scan the vector in order;
at the first record whose tag matches, copy its diffuseColor, specularColor
and shininess into the out-parameter `material` (the tag field is not
copied) and stop; otherwise leave `material` untouched. -/
def findMaterialLoop : List OBJECT_MATERIAL → String → OBJECT_MATERIAL →
    OBJECT_MATERIAL
  | [], _, material => material
  | r :: rest, tag, material =>
    if r.tag = tag then
      { material with
          diffuseColor := r.diffuseColor
          specularColor := r.specularColor
          shininess := r.shininess }
    else
      findMaterialLoop rest tag material

/-- SceneManager::FindMaterial: returns false when m_objectMaterials is
empty; otherwise runs the scan loop on the out-parameter and returns true —
whether or not any record matched.  The registry is only read (it is passed
by value here; the method never mutates m_objectMaterials). -/
def FindMaterial (mats : List OBJECT_MATERIAL) (tag : String)
    (material : OBJECT_MATERIAL) : Bool × OBJECT_MATERIAL :=
  if mats.length = 0 then
    (false, material)
  else
    (true, findMaterialLoop mats tag material)

/-- glm::scale(scaleXYZ): diagonal scaling matrix. -/
def scaleMat (s : Vec3) : Mat4 :=
  !![s.x, 0, 0, 0; 0, s.y, 0, 0; 0, 0, s.z, 0; 0, 0, 0, 1]

/-- glm::rotate(angle, vec3(1,0,0)) with c = cos angle, s = sin angle. -/
def rotationXMat (c s : ℚ) : Mat4 :=
  !![1, 0, 0, 0; 0, c, -s, 0; 0, s, c, 0; 0, 0, 0, 1]

/-- glm::rotate(angle, vec3(0,1,0)) with c = cos angle, s = sin angle. -/
def rotationYMat (c s : ℚ) : Mat4 :=
  !![c, 0, s, 0; 0, 1, 0, 0; -s, 0, c, 0; 0, 0, 0, 1]

/-- glm::rotate(angle, vec3(0,0,1)) with c = cos angle, s = sin angle. -/
def rotationZMat (c s : ℚ) : Mat4 :=
  !![c, -s, 0, 0; s, c, 0, 0; 0, 0, 1, 0; 0, 0, 0, 1]

/-- glm::translate(positionXYZ). -/
def translationMat (t : Vec3) : Mat4 :=
  !![1, 0, 0, t.x; 0, 1, 0, t.y; 0, 0, 1, t.z; 0, 0, 0, 1]

/-- The matrix SetTransformations builds:
modelView = translation * rotationZ * rotationY * rotationX * scale,
with (cx,sx), (cy,sy), (cz,sz) the cosine/sine of the radian-converted
X-, Y- and Z-rotation angles. -/
def modelViewMat (scaleXYZ : Vec3) (cx sx cy sy cz sz : ℚ)
    (positionXYZ : Vec3) : Mat4 :=
  translationMat positionXYZ * rotationZMat cz sz * rotationYMat cy sy *
    rotationXMat cx sx * scaleMat scaleXYZ

/-- A local-space point as the homogeneous column vector (x, y, z, 1). -/
def toHomog (p : Vec3) : Fin 4 → ℚ :=
  ![p.x, p.y, p.z, 1]

/-- Point-level action of the scaling matrix. -/
def scalePoint (s p : Vec3) : Vec3 :=
  ⟨s.x * p.x, s.y * p.y, s.z * p.z⟩

/-- Point-level action of the X-rotation matrix. -/
def rotateXPoint (c s : ℚ) (p : Vec3) : Vec3 :=
  ⟨p.x, c * p.y - s * p.z, s * p.y + c * p.z⟩

/-- Point-level action of the Y-rotation matrix. -/
def rotateYPoint (c s : ℚ) (p : Vec3) : Vec3 :=
  ⟨c * p.x + s * p.z, p.y, -s * p.x + c * p.z⟩

/-- Point-level action of the Z-rotation matrix. -/
def rotateZPoint (c s : ℚ) (p : Vec3) : Vec3 :=
  ⟨c * p.x - s * p.y, s * p.x + c * p.y, p.z⟩

/-- Point-level action of the translation matrix. -/
def translatePoint (t p : Vec3) : Vec3 :=
  ⟨p.x + t.x, p.y + t.y, p.z + t.z⟩

/-- One uniform upload issued through the ShaderManager. -/
inductive UniformWrite where
  | intVal (name : String) (v : Int)
  | floatVal (name : String) (v : ℚ)
  | vec2Val (name : String) (u v : ℚ)
  | vec3Val (name : String) (v : Vec3)
  | vec4Val (name : String) (r g b a : ℚ)
  | mat4Val (name : String) (m : Mat4)
  | sampler2DVal (name : String) (v : Int)
  | boolVal (name : String) (b : Bool)
deriving DecidableEq

/-- SceneManager::SetTransformations: builds the model matrix and, only when
m_pShaderManager is non-NULL, uploads it to the "model" uniform.  The NULL
case performs no upload at all. -/
def SetTransformations (pShaderManager : Option Unit) (scaleXYZ : Vec3)
    (cx sx cy sy cz sz : ℚ) (positionXYZ : Vec3) : List UniformWrite :=
  let modelView := modelViewMat scaleXYZ cx sx cy sy cz sz positionXYZ
  match pShaderManager with
  | some _ => [UniformWrite.mat4Val g_ModelName modelView]
  | none => []

/-- SceneManager::SetShaderColor: when m_pShaderManager is non-NULL, disables
texture sampling (setIntValue(bUseTexture, false) — false converts to 0) and
uploads the RGBA color; the NULL case performs no upload. -/
def SetShaderColor (pShaderManager : Option Unit) (r g b a : ℚ) :
    List UniformWrite :=
  match pShaderManager with
  | some _ =>
    [UniformWrite.intVal g_UseTextureName 0,
     UniformWrite.vec4Val g_ColorValueName r g b a]
  | none => []

/-- SceneManager::SetShaderTexture: when m_pShaderManager is non-NULL,
enables texture sampling (true converts to 1) and uploads the slot resolved
by FindTextureSlot (-1 when the tag is unknown); the NULL case performs no
upload. -/
def SetShaderTexture (pShaderManager : Option Unit) (s : TexRegistry)
    (textureTag : String) : List UniformWrite :=
  match pShaderManager with
  | some _ =>
    [UniformWrite.intVal g_UseTextureName 1,
     UniformWrite.sampler2DVal g_TextureValueName (FindTextureSlot s textureTag)]
  | none => []

/-- SceneManager::SetTextureUVScale: when m_pShaderManager is non-NULL,
uploads the UV tiling pair; the NULL case performs no upload. -/
def SetTextureUVScale (pShaderManager : Option Unit) (u v : ℚ) :
    List UniformWrite :=
  match pShaderManager with
  | some _ => [UniformWrite.vec2Val "UVscale" u v]
  | none => []

/-- Outcome of a setter that may dereference the ShaderManager pointer
without a NULL guard. -/
inductive CallResult where
  | ok (writes : List UniformWrite)
  | nullDeref
deriving DecidableEq

/-- SceneManager::SetShaderMaterial: if the material list is non-empty it
runs FindMaterial on the stack local `OBJECT_MATERIAL material;` (whose
indeterminate initial contents are modelled by the `localMaterial`
parameter) and, on a true return, uploads the three material uniforms
through m_pShaderManager with no NULL guard — a NULL pointer there is a
dereference of NULL, modelled as `CallResult.nullDeref`. -/
def SetShaderMaterial (pShaderManager : Option Unit)
    (mats : List OBJECT_MATERIAL) (localMaterial : OBJECT_MATERIAL)
    (materialTag : String) : CallResult :=
  if 0 < mats.length then
    let r := FindMaterial mats materialTag localMaterial
    if r.1 then
      match pShaderManager with
      | some _ =>
        CallResult.ok
          [UniformWrite.vec3Val "material.diffuseColor" r.2.diffuseColor,
           UniformWrite.vec3Val "material.specularColor" r.2.specularColor,
           UniformWrite.floatVal "material.shininess" r.2.shininess]
      | none => CallResult.nullDeref
    else
      CallResult.ok []
  else
    CallResult.ok []

/-- The glossyMaterial record defined by SceneManager::DefineObjectMaterials. -/
def glossyMaterial : OBJECT_MATERIAL :=
  { diffuseColor := ⟨1, 1, 1⟩, specularColor := ⟨1, 1, 1⟩,
    shininess := 128, tag := "glossy" }

/-- The metalMaterial record defined by SceneManager::DefineObjectMaterials. -/
def metalMaterial : OBJECT_MATERIAL :=
  { diffuseColor := ⟨0.7, 0.7, 0.7⟩, specularColor := ⟨0.9, 0.9, 0.9⟩,
    shininess := 64, tag := "metal" }

/-- The woodMaterial record defined by SceneManager::DefineObjectMaterials. -/
def woodMaterial : OBJECT_MATERIAL :=
  { diffuseColor := ⟨0.6, 0.4, 0.3⟩, specularColor := ⟨0.3, 0.3, 0.3⟩,
    shininess := 32, tag := "wood" }

/-- The mattePlasticMaterial record defined by
SceneManager::DefineObjectMaterials. -/
def mattePlasticMaterial : OBJECT_MATERIAL :=
  { diffuseColor := ⟨0.5, 0.5, 0.5⟩, specularColor := ⟨0.2, 0.2, 0.2⟩,
    shininess := 16, tag := "matte" }

/-- The ceramicMaterial record defined by
SceneManager::DefineObjectMaterials. -/
def ceramicMaterial : OBJECT_MATERIAL :=
  { diffuseColor := ⟨0.9, 0.9, 0.9⟩, specularColor := ⟨0.5, 0.5, 0.5⟩,
    shininess := 48, tag := "ceramic" }

/-- The defaultMaterial record defined by
SceneManager::DefineObjectMaterials. -/
def defaultMaterial : OBJECT_MATERIAL :=
  { diffuseColor := ⟨1, 1, 1⟩, specularColor := ⟨0.5, 0.5, 0.5⟩,
    shininess := 32, tag := "default" }

/-- SceneManager::DefineObjectMaterials: pushes the six records onto
m_objectMaterials in this order. -/
def DefineObjectMaterials : List OBJECT_MATERIAL :=
  [glossyMaterial, metalMaterial, woodMaterial, mattePlasticMaterial,
   ceramicMaterial, defaultMaterial]

/-- The texture loads of SceneManager::PrepareScene, in program order:
monitor, screen, metal, desk.  Each `img...` models the decode outcome of
the corresponding image file, each `id...` the handle glGenTextures returns
for it; the registry starts from the fresh-constructor state. -/
def PrepareSceneTextures (imgMonitor imgScreen imgMetal imgDesk : ImageResult)
    (idMonitor idScreen idMetal idDesk : Nat) : TexRegistry :=
  let s1 := (CreateGLTexture imgMonitor idMonitor "monitor" emptyTexRegistry).2
  let s2 := (CreateGLTexture imgScreen idScreen "screen" s1).2
  let s3 := (CreateGLTexture imgMetal idMetal "metal" s2).2
  (CreateGLTexture imgDesk idDesk "desk" s3).2

/-- One call issued by the scene script of SceneManager::RenderScene.
setTransformations records the arguments as passed (rotation angles in
degrees); draw calls record which ShapeMeshes primitive is drawn. -/
inductive SceneCall where
  | setTransformations (scaleXYZ : Vec3) (xRotDeg yRotDeg zRotDeg : ℚ)
      (positionXYZ : Vec3)
  | setShaderColor (r g b a : ℚ)
  | setShaderTexture (textureTag : String)
  | setShaderMaterial (materialTag : String)
  | setTextureUVScale (u v : ℚ)
  | drawPlane
  | drawBox
  | drawCylinder
  | drawCone
  | drawTaperedCylinder
  | drawSphere
  | drawTorus
deriving DecidableEq

/-- The fixed call sequence of SceneManager::RenderScene, in program order:
desk box, monitor box, cylinder stand, tapered-cylinder stand, screen plane,
keyboard, lamp base, lamp pole, lamp shade, lamp bulb, mug body, mug handle. -/
def renderSceneScript : List SceneCall :=
  [ -- DESK - drawn as a box
   .setTransformations ⟨15, 0.5, 10⟩ 0 0 0 ⟨0, -0.25, 0⟩,
   .setShaderColor 0.91 0.85 0.85 1,
   .setShaderTexture "desk",
   .setShaderMaterial "wood",
   .setTextureUVScale 1.5 1.0,
   .drawBox,
   -- monitor box
   .setTransformations ⟨10, 0.15, 4.5⟩ 90 0 0 ⟨0, 5, 0⟩,
   .setShaderColor 0.2 0.2 0.2 1,
   .setShaderTexture "monitor",
   .setShaderMaterial "matte",
   .setTextureUVScale 1.0 1.0,
   .drawBox,
   -- cylinder stand
   .setTransformations ⟨0.5, 0.5, 2.5⟩ 0 90 0 ⟨0, 0, 0⟩,
   .setShaderColor 0.1 0.1 0.1 1.0,
   .setShaderMaterial "metal",
   .drawCylinder,
   -- tapered cylinder for monitor stand
   .setTransformations ⟨0.2, 5.0, 1.0⟩ 0 90 0 ⟨0, 0, 0⟩,
   .setShaderColor 0.1 0.1 0.1 1.0,
   .setShaderTexture "metal",
   .setShaderMaterial "metal",
   .setTextureUVScale 1.0 2.0,
   .drawTaperedCylinder,
   -- plane mesh for the monitor screen
   .setTransformations ⟨4.0, 1.0, 2.0⟩ 90 0 0 ⟨-0.25, 5, 0.5⟩,
   .setShaderColor 1.0 1.0 1.0 1.0,
   .setShaderTexture "screen",
   .setShaderMaterial "glossy",
   .setTextureUVScale 1.0 1.0,
   .drawPlane,
   -- KEYBOARD
   .setTransformations ⟨5.0, 0.15, 1.0⟩ 0 0 0 ⟨0, 0.075, 3⟩,
   .setShaderColor 0.1 0.1 0.1 1.0,
   .setShaderMaterial "matte",
   .drawBox,
   -- DESK LAMP - base
   .setTransformations ⟨0.5, 0.3, 0.3⟩ 0 0 0 ⟨-5.5, 0.10, 2⟩,
   .setShaderColor 0.2 0.2 0.2 1.0,
   .setShaderMaterial "metal",
   .drawCylinder,
   -- lamp pole
   .setTransformations ⟨0.12, 0.12, 2.8⟩ 90 0 0 ⟨-5.5, 0.3, 2⟩,
   .setShaderColor 0.15 0.15 0.15 1.0,
   .setShaderMaterial "metal",
   .drawCylinder,
   -- lamp shade
   .setTransformations ⟨0.7, 0.9, 0.7⟩ 180 0 0 ⟨-5.5, 3.1, 2⟩,
   .setShaderColor 0.9 0.85 0.7 1.0,
   .setShaderMaterial "matte",
   .drawCone,
   -- lamp bulb
   .setTransformations ⟨0.3, 0.3, 0.3⟩ 0 0 0 ⟨-5.5, 2.7, 2⟩,
   .setShaderColor 1.0 0.95 0.8 1.0,
   .setShaderMaterial "glossy",
   .drawSphere,
   -- COFFEE MUG - body
   .setTransformations ⟨0.45, 0.45, 0.65⟩ 0 0 0 ⟨5, 0.325, 2.5⟩,
   .setShaderColor 0.85 0.25 0.15 1.0,
   .setShaderMaterial "ceramic",
   .drawCylinder,
   -- mug handle
   .setTransformations ⟨0.28, 0.38, 0.1⟩ 0 90 0 ⟨5.5, 0.325, 2.5⟩,
   .setShaderColor 0.85 0.25 0.15 1.0,
   .setShaderMaterial "ceramic",
   .drawTorus]

/-- The texture tags RenderScene passes to SetShaderTexture, in order. -/
def renderSceneTextureTags : List String :=
  renderSceneScript.filterMap fun c =>
    match c with
    | .setShaderTexture t => some t
    | _ => none

/-- The material tags RenderScene passes to SetShaderMaterial, in order. -/
def renderSceneMaterialTags : List String :=
  renderSceneScript.filterMap fun c =>
    match c with
    | .setShaderMaterial t => some t
    | _ => none

/-- One possible content of the uninitialized stack local
`OBJECT_MATERIAL material;` in SetShaderMaterial (its value is
indeterminate; theorems quantify over it, witnesses pick this one). -/
def uninitMaterial : OBJECT_MATERIAL :=
  { diffuseColor := ⟨0, 0, 0⟩, specularColor := ⟨0, 0, 0⟩,
    shininess := 0, tag := "" }

/-- When no record matches, the FindMaterial scan leaves the out-parameter
untouched. -/
theorem findMaterialLoop_nomatch (mats : List OBJECT_MATERIAL) (tag : String)
    (material : OBJECT_MATERIAL) (h : ∀ r ∈ mats, r.tag ≠ tag) :
    findMaterialLoop mats tag material = material := by
  induction mats with
  | nil => rfl
  | cons a rest ih =>
    have ha : a.tag ≠ tag := h a (List.mem_cons_self a rest)
    simp only [findMaterialLoop, if_neg ha]
    exact ih fun r hr => h r (List.mem_cons_of_mem a hr)

/-- The FindMaterial scan copies the three lighting fields of the first
matching record into the out-parameter. -/
theorem findMaterialLoop_first (mats : List OBJECT_MATERIAL) (tag : String)
    (material r : OBJECT_MATERIAL)
    (h : mats.find? (fun m => m.tag == tag) = some r) :
    (findMaterialLoop mats tag material).diffuseColor = r.diffuseColor ∧
    (findMaterialLoop mats tag material).specularColor = r.specularColor ∧
    (findMaterialLoop mats tag material).shininess = r.shininess := by
  induction mats with
  | nil => simp at h
  | cons a rest ih =>
    by_cases ha : a.tag = tag
    · have : a = r := by
        have hba : (a.tag == tag) = true := beq_iff_eq.mpr ha
        rw [List.find?_cons, hba] at h
        exact Option.some.inj h
      subst this
      simp only [findMaterialLoop, if_pos ha]
      exact ⟨by trivial, by trivial, by trivial⟩
    · have hba : (a.tag == tag) = false := by
        exact beq_eq_false_iff_ne.mpr ha
      rw [List.find?_cons, hba] at h
      simp only [findMaterialLoop, if_neg ha]
      exact ih h

/-- Claim C2: FindMaterial returns false exactly when the material registry
is empty; for a non-empty registry it returns true whether or not any record
matches, and when a first matching record exists (in definition order) its
diffuseColor, specularColor and shininess are copied into the out-parameter.
The registry itself is only read (the embedding passes it by value and
returns no modified registry). -/
theorem c2_FindMaterial_spec (mats : List OBJECT_MATERIAL) (tag : String)
    (material : OBJECT_MATERIAL) :
    ((FindMaterial mats tag material).1 = false ↔ mats = []) ∧
    (∀ r, mats.find? (fun m => m.tag == tag) = some r →
      (FindMaterial mats tag material).2.diffuseColor = r.diffuseColor ∧
      (FindMaterial mats tag material).2.specularColor = r.specularColor ∧
      (FindMaterial mats tag material).2.shininess = r.shininess) := by
  constructor
  · cases mats with
    | nil => simp [FindMaterial]
    | cons a rest => simp [FindMaterial]
  · intro r hr
    cases mats with
    | nil => simp at hr
    | cons a rest =>
      have hne : (a :: rest).length ≠ 0 := by simp
      simp only [FindMaterial, if_neg hne]
      exact findMaterialLoop_first (a :: rest) tag material r hr

/-- Claim C2 witness: in the registry [woodMaterial, metalMaterial], looking
up tag metal copies the metal shininess 64 into the out-parameter and the
call returns true. -/
theorem c2_FindMaterial_spec_witness :
    (FindMaterial [woodMaterial, metalMaterial] "metal" uninitMaterial).2.shininess
      = 64 ∧
    ¬ (FindMaterial [woodMaterial, metalMaterial] "metal" uninitMaterial).1
      = false := by
  have h := c2_FindMaterial_spec [woodMaterial, metalMaterial] "metal"
    uninitMaterial
  refine ⟨?_, ?_⟩
  · have h2 := (h.2 metalMaterial (by rfl)).2.2
    rw [h2]
    rfl
  · intro hfalse
    exact absurd (h.1.mp hfalse) (List.cons_ne_nil _ _)

/-- Claim C1 counterexample: with the non-empty registry [woodMaterial] and
the unmatched tag granite, SetShaderMaterial does not leave the material
uniforms alone — FindMaterial reports success, so three uploads are issued
(carrying the indeterminate contents of the uninitialized local), refuting
the claim that nothing is uploaded. -/
theorem c1_SetShaderMaterial_unmatched_counterexample :
    SetShaderMaterial (some ()) [woodMaterial] uninitMaterial "granite" =
      CallResult.ok
        [UniformWrite.vec3Val "material.diffuseColor" uninitMaterial.diffuseColor,
         UniformWrite.vec3Val "material.specularColor" uninitMaterial.specularColor,
         UniformWrite.floatVal "material.shininess" uninitMaterial.shininess] ∧
    SetShaderMaterial (some ()) [woodMaterial] uninitMaterial "granite" ≠
      CallResult.ok [] := by
  constructor
  · rfl
  · decide

/-- Claim C1 amended: with an empty registry SetShaderMaterial is a complete
no-op; but with a non-empty registry and a tag matching no record it still
uploads — FindMaterial reports success without writing the out-parameter, so
the three material uniforms receive the indeterminate contents of the
uninitialized local variable instead of being left as they were. -/
theorem c1_SetShaderMaterial_unmatched_amended
    (mats : List OBJECT_MATERIAL) (localMaterial : OBJECT_MATERIAL)
    (tag : String) :
    (∀ pShaderManager,
      SetShaderMaterial pShaderManager [] localMaterial tag =
        CallResult.ok []) ∧
    (mats ≠ [] → (∀ r ∈ mats, r.tag ≠ tag) →
      SetShaderMaterial (some ()) mats localMaterial tag =
        CallResult.ok
          [UniformWrite.vec3Val "material.diffuseColor"
             localMaterial.diffuseColor,
           UniformWrite.vec3Val "material.specularColor"
             localMaterial.specularColor,
           UniformWrite.floatVal "material.shininess"
             localMaterial.shininess]) := by
  constructor
  · intro pShaderManager
    simp [SetShaderMaterial]
  · intro hne hno
    have hlen : 0 < mats.length := List.length_pos.mpr hne
    have hlen0 : mats.length ≠ 0 := Nat.pos_iff_ne_zero.mp hlen
    simp only [SetShaderMaterial, if_pos hlen, FindMaterial, if_neg hlen0]
    rw [findMaterialLoop_nomatch mats tag localMaterial hno]
    simp

/-- Claim C1 amended witness: concrete instance of the amended statement at
registry [woodMaterial] and unmatched tag granite. -/
theorem c1_SetShaderMaterial_unmatched_amended_witness :
    SetShaderMaterial (some ()) [] uninitMaterial "granite" =
      CallResult.ok [] ∧
    SetShaderMaterial (some ()) [woodMaterial] uninitMaterial "granite" =
      CallResult.ok
        [UniformWrite.vec3Val "material.diffuseColor" uninitMaterial.diffuseColor,
         UniformWrite.vec3Val "material.specularColor" uninitMaterial.specularColor,
         UniformWrite.floatVal "material.shininess" uninitMaterial.shininess] := by
  have h := c1_SetShaderMaterial_unmatched_amended [woodMaterial]
    uninitMaterial "granite"
  exact ⟨h.1 (some ()), h.2 (by decide) (by decide)⟩

/-- Claim C5: a successful decode whose channel count is neither 3 nor 4
makes CreateGLTexture return false with the registry completely unchanged —
no entry appended, counter not incremented. -/
theorem c5_CreateGLTexture_badChannels (s : TexRegistry) (ch : Nat)
    (newTextureID : Nat) (tag : String) (h3 : ch ≠ 3) (h4 : ch ≠ 4) :
    CreateGLTexture (ImageResult.ok ch) newTextureID tag s = (false, s) := by
  have h : ¬ (ch = 3 ∨ ch = 4) := by
    intro hor
    rcases hor with h | h
    · exact h3 h
    · exact h4 h
  simp only [CreateGLTexture, if_neg h]

/-- Claim C5 witness: a 2-channel decode is rejected and the fresh registry
is returned unchanged. -/
theorem c5_CreateGLTexture_badChannels_witness :
    CreateGLTexture (ImageResult.ok 2) 5 "desk" emptyTexRegistry =
      (false, emptyTexRegistry) :=
  c5_CreateGLTexture_badChannels emptyTexRegistry 2 5 "desk"
    (by decide) (by decide)

/-- Claim C6: a successful decode with exactly 3 or exactly 4 channels makes
CreateGLTexture return true, store the new record (with the given tag) at
index m_loadedTextures, increment the counter by one, and leave every
previously registered entry unchanged. -/
theorem c6_CreateGLTexture_success (s : TexRegistry) (ch : Nat)
    (newTextureID : Nat) (tag : String) (h : ch = 3 ∨ ch = 4) :
    (CreateGLTexture (ImageResult.ok ch) newTextureID tag s).1 = true ∧
    (CreateGLTexture (ImageResult.ok ch) newTextureID tag s).2.loadedTextures
      = s.loadedTextures + 1 ∧
    (CreateGLTexture (ImageResult.ok ch) newTextureID tag s).2.arr
        s.loadedTextures = ⟨newTextureID, tag⟩ ∧
    ∀ j, j < s.loadedTextures →
      (CreateGLTexture (ImageResult.ok ch) newTextureID tag s).2.arr j
        = s.arr j := by
  refine ⟨by simp [CreateGLTexture, if_pos h],
    by simp [CreateGLTexture, if_pos h],
    by simp [CreateGLTexture, if_pos h],
    fun j hj => ?_⟩
  have hne : j ≠ s.loadedTextures := Nat.ne_of_lt hj
  simp [CreateGLTexture, if_pos h, hne]

/-- Claim C6 witness: loading a 4-channel image into the fresh registry
registers the tagged entry at index 0 and bumps the counter to 1. -/
theorem c6_CreateGLTexture_success_witness :
    (CreateGLTexture (ImageResult.ok 4) 7 "monitor" emptyTexRegistry).1
      = true ∧
    (CreateGLTexture (ImageResult.ok 4) 7 "monitor"
        emptyTexRegistry).2.loadedTextures
      = emptyTexRegistry.loadedTextures + 1 ∧
    (CreateGLTexture (ImageResult.ok 4) 7 "monitor" emptyTexRegistry).2.arr
        emptyTexRegistry.loadedTextures = ⟨7, "monitor"⟩ ∧
    ∀ j, j < emptyTexRegistry.loadedTextures →
      (CreateGLTexture (ImageResult.ok 4) 7 "monitor" emptyTexRegistry).2.arr j
        = emptyTexRegistry.arr j :=
  c6_CreateGLTexture_success emptyTexRegistry 4 7 "monitor" (Or.inr rfl)

/-- A texture registry already holding 16 entries, the declared capacity of
the m_textureIDs array. -/
def fullTexRegistry : TexRegistry :=
  { arr := fun _ => ⟨1, "t"⟩, loadedTextures := 16 }

/-- Claim C8: the success path of CreateGLTexture never consults the 16-slot
capacity: for every registry state a 3- or 4-channel decode returns true,
writes the record at index m_loadedTextures and increments the counter; and
whenever 16 or more textures are already registered, that write index is not
within the declared array capacity. -/
theorem c8_CreateGLTexture_noCapacityCheck (s : TexRegistry) (ch : Nat)
    (newTextureID : Nat) (tag : String) (h : ch = 3 ∨ ch = 4) :
    ((CreateGLTexture (ImageResult.ok ch) newTextureID tag s).1 = true ∧
     (CreateGLTexture (ImageResult.ok ch) newTextureID tag s).2.arr
         s.loadedTextures = ⟨newTextureID, tag⟩ ∧
     (CreateGLTexture (ImageResult.ok ch) newTextureID tag s).2.loadedTextures
       = s.loadedTextures + 1) ∧
    (textureArrayCapacity ≤ s.loadedTextures →
      ¬ s.loadedTextures < textureArrayCapacity) := by
  constructor
  · exact ⟨by simp [CreateGLTexture, if_pos h],
      by simp [CreateGLTexture, if_pos h],
      by simp [CreateGLTexture, if_pos h]⟩
  · intro hfull
    omega

/-- Claim C8 witness: with 16 textures already registered, a 3-channel load
still succeeds and targets index 16 — outside the 16-entry array. -/
theorem c8_CreateGLTexture_noCapacityCheck_witness :
    ((CreateGLTexture (ImageResult.ok 3) 9 "extra" fullTexRegistry).1 = true ∧
     (CreateGLTexture (ImageResult.ok 3) 9 "extra" fullTexRegistry).2.arr
         fullTexRegistry.loadedTextures = ⟨9, "extra"⟩ ∧
     (CreateGLTexture (ImageResult.ok 3) 9 "extra"
         fullTexRegistry).2.loadedTextures
       = fullTexRegistry.loadedTextures + 1) ∧
    (textureArrayCapacity ≤ fullTexRegistry.loadedTextures →
      ¬ fullTexRegistry.loadedTextures < textureArrayCapacity) :=
  c8_CreateGLTexture_noCapacityCheck fullTexRegistry 3 9 "extra" (Or.inl rfl)

/-- A texture registry holding exactly one texture, with GPU handle 7. -/
def oneTexRegistry : TexRegistry :=
  { arr := fun i => if i = 0 then ⟨7, "desk"⟩ else ⟨0, ""⟩,
    loadedTextures := 1 }

/-- Claim C9 failing input, evaluated: on a registry holding the single GPU
handle 7, DestroyGLTextures issues exactly one glGenTextures call and no
delete operation of any kind, and overwrites the stored handle 7 with the
freshly generated handle 9 — the original texture is never freed, contrary
to the claim (and to the method doc) that every handle is released. -/
theorem c9_DestroyGLTextures_neverDeletes :
    (DestroyGLTextures oneTexRegistry (fun _ => 9)).1 =
      [GLTextureOp.genTextures 1] ∧
    (∀ op ∈ (DestroyGLTextures oneTexRegistry (fun _ => 9)).1,
      ∀ n textureID, op ≠ GLTextureOp.deleteTextures n textureID) ∧
    (DestroyGLTextures oneTexRegistry (fun _ => 9)).2.arr 0 = ⟨9, "desk"⟩ := by
  have h1 : (DestroyGLTextures oneTexRegistry (fun _ => 9)).1 =
      [GLTextureOp.genTextures 1] := rfl
  refine ⟨h1, ?_, rfl⟩
  intro op hop n textureID
  rw [h1] at hop
  have : op = GLTextureOp.genTextures 1 := List.mem_singleton.mp hop
  subst this
  intro hcontra
  exact GLTextureOp.noConfusion hcontra

/-- Claim C10: with a NULL ShaderManager pointer, SetTransformations,
SetShaderColor, SetShaderTexture and SetTextureUVScale upload nothing at
all, while SetShaderMaterial — which has no NULL guard — dereferences the
NULL pointer whenever the material registry is non-empty and some record
matches the tag. -/
theorem c10_null_shaderManager (scaleXYZ : Vec3) (cx sx cy sy cz sz : ℚ)
    (positionXYZ : Vec3) (r g b a u v : ℚ) (s : TexRegistry)
    (textureTag : String) (mats : List OBJECT_MATERIAL)
    (localMaterial : OBJECT_MATERIAL) (materialTag : String) :
    SetTransformations none scaleXYZ cx sx cy sy cz sz positionXYZ = [] ∧
    SetShaderColor none r g b a = [] ∧
    SetShaderTexture none s textureTag = [] ∧
    SetTextureUVScale none u v = [] ∧
    (mats ≠ [] → (∃ m ∈ mats, m.tag = materialTag) →
      SetShaderMaterial none mats localMaterial materialTag =
        CallResult.nullDeref) := by
  refine ⟨rfl, rfl, rfl, rfl, fun hne _ => ?_⟩
  have hlen : 0 < mats.length := List.length_pos.mpr hne
  have hlen0 : mats.length ≠ 0 := Nat.pos_iff_ne_zero.mp hlen
  simp only [SetShaderMaterial, if_pos hlen, FindMaterial, if_neg hlen0]
  simp

/-- Claim C10 witness: the guarded setters are no-ops on a NULL pointer at
concrete arguments, and SetShaderMaterial with registry [woodMaterial] and
the matching tag wood dereferences NULL. -/
theorem c10_null_shaderManager_witness :
    SetTransformations none ⟨1, 1, 1⟩ 1 0 1 0 1 0 ⟨0, 0, 0⟩ = [] ∧
    SetShaderColor none 1 1 1 1 = [] ∧
    SetShaderTexture none emptyTexRegistry "desk" = [] ∧
    SetTextureUVScale none 1 1 = [] ∧
    SetShaderMaterial none [woodMaterial] uninitMaterial "wood" =
      CallResult.nullDeref := by
  have h := c10_null_shaderManager ⟨1, 1, 1⟩ 1 0 1 0 1 0 ⟨0, 0, 0⟩
    1 1 1 1 1 1 emptyTexRegistry "desk" [woodMaterial] uninitMaterial "wood"
  exact ⟨h.1, h.2.1, h.2.2.1, h.2.2.2.1,
    h.2.2.2.2 (by decide) ⟨woodMaterial, by simp, rfl⟩⟩

/-- If no record in the scanned range matches, the FindTextureSlot loop
returns -1. -/
theorem findTextureSlotLoop_nomatch (s : TexRegistry) (tag : String) :
    ∀ (k index : Nat), s.loadedTextures - index = k →
    (∀ j, index ≤ j → j < s.loadedTextures → (s.arr j).tag ≠ tag) →
    findTextureSlotLoop s tag index = -1 := by
  intro k
  induction k with
  | zero =>
    intro index hk _
    unfold findTextureSlotLoop
    rw [if_neg (by omega)]
  | succ n ih =>
    intro index hk hno
    have hidx : index < s.loadedTextures := by omega
    unfold findTextureSlotLoop
    rw [if_pos hidx, if_neg (hno index le_rfl hidx)]
    exact ih (index + 1) (by omega) fun j hj hj2 => hno j (by omega) hj2

/-- If position i holds the first matching record at or after the scan
start, the FindTextureSlot loop returns i. -/
theorem findTextureSlotLoop_found (s : TexRegistry) (tag : String) (i : Nat)
    (hi : i < s.loadedTextures) (hmatch : (s.arr i).tag = tag) :
    ∀ (k index : Nat), i - index = k → index ≤ i →
    (∀ j, index ≤ j → j < i → (s.arr j).tag ≠ tag) →
    findTextureSlotLoop s tag index = (i : Int) := by
  intro k
  induction k with
  | zero =>
    intro index hk hle _
    have : index = i := by omega
    subst this
    unfold findTextureSlotLoop
    rw [if_pos hi, if_pos hmatch]
  | succ n ih =>
    intro index hk hle hfirst
    have hlt : index < i := by omega
    unfold findTextureSlotLoop
    rw [if_pos (lt_trans hlt hi), if_neg (hfirst index le_rfl hlt)]
    exact ih (index + 1) (by omega) (by omega) fun j hj hj2 => hfirst j (by omega) hj2

/-- If no record in the scanned range matches, the FindTextureID loop
returns -1. -/
theorem findTextureIDLoop_nomatch (s : TexRegistry) (tag : String) :
    ∀ (k index : Nat), s.loadedTextures - index = k →
    (∀ j, index ≤ j → j < s.loadedTextures → (s.arr j).tag ≠ tag) →
    findTextureIDLoop s tag index = -1 := by
  intro k
  induction k with
  | zero =>
    intro index hk _
    unfold findTextureIDLoop
    rw [if_neg (by omega)]
  | succ n ih =>
    intro index hk hno
    have hidx : index < s.loadedTextures := by omega
    unfold findTextureIDLoop
    rw [if_pos hidx, if_neg (hno index le_rfl hidx)]
    exact ih (index + 1) (by omega) fun j hj hj2 => hno j (by omega) hj2

/-- If position i holds the first matching record at or after the scan
start, the FindTextureID loop returns the GPU handle stored at i. -/
theorem findTextureIDLoop_found (s : TexRegistry) (tag : String) (i : Nat)
    (hi : i < s.loadedTextures) (hmatch : (s.arr i).tag = tag) :
    ∀ (k index : Nat), i - index = k → index ≤ i →
    (∀ j, index ≤ j → j < i → (s.arr j).tag ≠ tag) →
    findTextureIDLoop s tag index = ((s.arr i).ID : Int) := by
  intro k
  induction k with
  | zero =>
    intro index hk hle _
    have : index = i := by omega
    subst this
    unfold findTextureIDLoop
    rw [if_pos hi, if_pos hmatch]
  | succ n ih =>
    intro index hk hle hfirst
    have hlt : index < i := by omega
    unfold findTextureIDLoop
    rw [if_pos (lt_trans hlt hi), if_neg (hfirst index le_rfl hlt)]
    exact ih (index + 1) (by omega) (by omega) fun j hj hj2 => hfirst j (by omega) hj2

/-- FindTextureSlot returns the position of the first matching record. -/
theorem findTextureSlot_eq_of_first (s : TexRegistry) (tag : String) (i : Nat)
    (hi : i < s.loadedTextures) (hmatch : (s.arr i).tag = tag)
    (hfirst : ∀ j, j < i → (s.arr j).tag ≠ tag) :
    FindTextureSlot s tag = (i : Int) :=
  findTextureSlotLoop_found s tag i hi hmatch i 0 (Nat.sub_zero i)
    (Nat.zero_le i) fun j _ hj => hfirst j hj

/-- FindTextureSlot returns -1 when no record matches. -/
theorem findTextureSlot_eq_of_nomatch (s : TexRegistry) (tag : String)
    (hno : ∀ j, j < s.loadedTextures → (s.arr j).tag ≠ tag) :
    FindTextureSlot s tag = -1 :=
  findTextureSlotLoop_nomatch s tag s.loadedTextures 0
    (Nat.sub_zero s.loadedTextures) fun j _ hj => hno j hj

/-- FindTextureID returns the handle of the first matching record. -/
theorem findTextureID_eq_of_first (s : TexRegistry) (tag : String) (i : Nat)
    (hi : i < s.loadedTextures) (hmatch : (s.arr i).tag = tag)
    (hfirst : ∀ j, j < i → (s.arr j).tag ≠ tag) :
    FindTextureID s tag = ((s.arr i).ID : Int) :=
  findTextureIDLoop_found s tag i hi hmatch i 0 (Nat.sub_zero i)
    (Nat.zero_le i) fun j _ hj => hfirst j hj

/-- FindTextureID returns -1 when no record matches. -/
theorem findTextureID_eq_of_nomatch (s : TexRegistry) (tag : String)
    (hno : ∀ j, j < s.loadedTextures → (s.arr j).tag ≠ tag) :
    FindTextureID s tag = -1 :=
  findTextureIDLoop_nomatch s tag s.loadedTextures 0
    (Nat.sub_zero s.loadedTextures) fun j _ hj => hno j hj

/-- Claim C4: when the record at 0-indexed registration position i is the
first whose tag equals the query, FindTextureSlot returns i and
FindTextureID returns the GPU handle stored at i; when no registered record
matches, both return -1. -/
theorem c4_FindTexture_lookup (s : TexRegistry) (tag : String) :
    (∀ i, i < s.loadedTextures → (s.arr i).tag = tag →
      (∀ j, j < i → (s.arr j).tag ≠ tag) →
      FindTextureSlot s tag = (i : Int) ∧
      FindTextureID s tag = ((s.arr i).ID : Int)) ∧
    ((∀ j, j < s.loadedTextures → (s.arr j).tag ≠ tag) →
      FindTextureSlot s tag = -1 ∧ FindTextureID s tag = -1) :=
  ⟨fun i hi hmatch hfirst =>
    ⟨findTextureSlot_eq_of_first s tag i hi hmatch hfirst,
     findTextureID_eq_of_first s tag i hi hmatch hfirst⟩,
   fun hno =>
    ⟨findTextureSlot_eq_of_nomatch s tag hno,
     findTextureID_eq_of_nomatch s tag hno⟩⟩

/-- A texture registry with two registered textures: monitor (handle 5) at
slot 0 and desk (handle 8) at slot 1. -/
def twoTexRegistry : TexRegistry :=
  { arr := fun i =>
      if i = 0 then ⟨5, "monitor"⟩ else if i = 1 then ⟨8, "desk"⟩ else ⟨0, ""⟩,
    loadedTextures := 2 }

/-- Claim C4 witness: in the two-entry registry, tag desk (registered at
position 1 with handle 8) resolves to slot 1 and handle 8, and the
unregistered tag lamp resolves to -1 for both lookups. -/
theorem c4_FindTexture_lookup_witness :
    (FindTextureSlot twoTexRegistry "desk" = 1 ∧
     FindTextureID twoTexRegistry "desk" = 8) ∧
    (FindTextureSlot twoTexRegistry "lamp" = -1 ∧
     FindTextureID twoTexRegistry "lamp" = -1) := by
  constructor
  · have hfirst : ∀ j, j < 1 → ((twoTexRegistry.arr j).tag ≠ "desk") := by
      decide
    have h := (c4_FindTexture_lookup twoTexRegistry "desk").1 1
      (by decide) (by decide) hfirst
    exact ⟨h.1, h.2⟩
  · have hno : ∀ j, j < 2 → ((twoTexRegistry.arr j).tag ≠ "lamp") := by
      decide
    exact (c4_FindTexture_lookup twoTexRegistry "lamp").2 hno

/-- The scaling matrix acts on a homogeneous point as scalePoint. -/
theorem scaleMat_mulVec (s p : Vec3) :
    (scaleMat s).mulVec (toHomog p) = toHomog (scalePoint s p) := by
  funext i
  fin_cases i <;>
    simp [scaleMat, toHomog, scalePoint, Matrix.mulVec, Matrix.dotProduct,
      Fin.sum_univ_four] <;> ring

/-- The X-rotation matrix acts on a homogeneous point as rotateXPoint. -/
theorem rotationXMat_mulVec (c s : ℚ) (p : Vec3) :
    (rotationXMat c s).mulVec (toHomog p) = toHomog (rotateXPoint c s p) := by
  funext i
  fin_cases i <;>
    simp [rotationXMat, toHomog, rotateXPoint, Matrix.mulVec,
      Matrix.dotProduct, Fin.sum_univ_four] <;> ring

/-- The Y-rotation matrix acts on a homogeneous point as rotateYPoint. -/
theorem rotationYMat_mulVec (c s : ℚ) (p : Vec3) :
    (rotationYMat c s).mulVec (toHomog p) = toHomog (rotateYPoint c s p) := by
  funext i
  fin_cases i <;>
    simp [rotationYMat, toHomog, rotateYPoint, Matrix.mulVec,
      Matrix.dotProduct, Fin.sum_univ_four] <;> ring

/-- The Z-rotation matrix acts on a homogeneous point as rotateZPoint. -/
theorem rotationZMat_mulVec (c s : ℚ) (p : Vec3) :
    (rotationZMat c s).mulVec (toHomog p) = toHomog (rotateZPoint c s p) := by
  funext i
  fin_cases i <;>
    simp [rotationZMat, toHomog, rotateZPoint, Matrix.mulVec,
      Matrix.dotProduct, Fin.sum_univ_four] <;> ring

/-- The translation matrix acts on a homogeneous point as translatePoint. -/
theorem translationMat_mulVec (t p : Vec3) :
    (translationMat t).mulVec (toHomog p) = toHomog (translatePoint t p) := by
  funext i
  fin_cases i <;>
    simp [translationMat, toHomog, translatePoint, Matrix.mulVec,
      Matrix.dotProduct, Fin.sum_univ_four] <;> ring

/-- The composed model matrix acts on a local-space point by scaling first,
then rotating about X, then Y, then Z, then translating. -/
theorem modelViewMat_action (scaleXYZ : Vec3) (cx sx cy sy cz sz : ℚ)
    (positionXYZ p : Vec3) :
    (modelViewMat scaleXYZ cx sx cy sy cz sz positionXYZ).mulVec (toHomog p) =
      toHomog (translatePoint positionXYZ (rotateZPoint cz sz (rotateYPoint
        cy sy (rotateXPoint cx sx (scalePoint scaleXYZ p))))) := by
  unfold modelViewMat
  rw [← Matrix.mulVec_mulVec, ← Matrix.mulVec_mulVec, ← Matrix.mulVec_mulVec,
    ← Matrix.mulVec_mulVec, scaleMat_mulVec, rotationXMat_mulVec,
    rotationYMat_mulVec, rotationZMat_mulVec, translationMat_mulVec]

/-- Claim C3: SetTransformations uploads exactly the matrix
Translation * RotationZ * RotationY * RotationX * Scale; that product acts
on a local-space vertex with the rightmost factor applied first (scale, then
X-, Y-, Z-rotation, then translation); and concretely, with scale (2,1,1),
a 90-degree Y rotation (cosine 0, sine 1), no X or Z rotation and
translation (1,0,0), the local point (1,0,0) is mapped exactly to
(1,0,-2). -/
theorem c3_SetTransformations_composition (scaleXYZ : Vec3)
    (cx sx cy sy cz sz : ℚ) (positionXYZ p : Vec3) :
    (SetTransformations (some ()) scaleXYZ cx sx cy sy cz sz positionXYZ =
      [UniformWrite.mat4Val g_ModelName
        (translationMat positionXYZ * rotationZMat cz sz * rotationYMat cy sy *
          rotationXMat cx sx * scaleMat scaleXYZ)]) ∧
    ((modelViewMat scaleXYZ cx sx cy sy cz sz positionXYZ).mulVec (toHomog p) =
      toHomog (translatePoint positionXYZ (rotateZPoint cz sz (rotateYPoint
        cy sy (rotateXPoint cx sx (scalePoint scaleXYZ p)))))) ∧
    ((modelViewMat ⟨2, 1, 1⟩ 1 0 0 1 1 0 ⟨1, 0, 0⟩).mulVec
        (toHomog ⟨1, 0, 0⟩) = toHomog ⟨1, 0, -2⟩) := by
  refine ⟨rfl, modelViewMat_action scaleXYZ cx sx cy sy cz sz positionXYZ p, ?_⟩
  rw [modelViewMat_action]
  exact congrArg toHomog (by norm_num [translatePoint, rotateZPoint,
    rotateYPoint, rotateXPoint, scalePoint])

/-- The registry PrepareScene builds when all four loads succeed: monitor at
slot 0, screen at slot 1, metal at slot 2, desk at slot 3. -/
def preparedRegistry (idMonitor idScreen idMetal idDesk : Nat) : TexRegistry :=
  { arr := fun i =>
      if i = 3 then ⟨idDesk, "desk"⟩
      else if i = 2 then ⟨idMetal, "metal"⟩
      else if i = 1 then ⟨idScreen, "screen"⟩
      else if i = 0 then ⟨idMonitor, "monitor"⟩
      else ⟨0, ""⟩,
    loadedTextures := 4 }

/-- When each of the four images decodes with 3 or 4 channels, the
PrepareScene texture loads produce exactly the four-entry registry. -/
theorem prepareSceneTextures_ok (cM cS cMe cD idM idS idMe idD : Nat)
    (h1 : cM = 3 ∨ cM = 4) (h2 : cS = 3 ∨ cS = 4) (h3 : cMe = 3 ∨ cMe = 4)
    (h4 : cD = 3 ∨ cD = 4) :
    PrepareSceneTextures (ImageResult.ok cM) (ImageResult.ok cS)
        (ImageResult.ok cMe) (ImageResult.ok cD) idM idS idMe idD =
      preparedRegistry idM idS idMe idD := by
  rcases h1 with rfl | rfl <;> rcases h2 with rfl | rfl <;>
    rcases h3 with rfl | rfl <;> rcases h4 with rfl | rfl <;> rfl

/-- The texture tags of the scene script, evaluated. -/
theorem renderSceneTextureTags_eq :
    renderSceneTextureTags = ["desk", "monitor", "metal", "screen"] := by
  rfl

/-- The material tags of the scene script, evaluated. -/
theorem renderSceneMaterialTags_eq :
    renderSceneMaterialTags =
      ["wood", "matte", "metal", "metal", "glossy", "matte", "metal",
       "metal", "matte", "glossy", "ceramic", "ceramic"] := by
  rfl

/-- Claim C7: assuming the four PrepareScene texture loads succeed, every
texture tag RenderScene passes to SetShaderTexture resolves to a
non-negative slot in the resulting registry, and every material tag
RenderScene passes to SetShaderMaterial matches a record defined by
DefineObjectMaterials. -/
theorem c7_renderScene_tags_registered (cM cS cMe cD idM idS idMe idD : Nat)
    (h1 : cM = 3 ∨ cM = 4) (h2 : cS = 3 ∨ cS = 4) (h3 : cMe = 3 ∨ cMe = 4)
    (h4 : cD = 3 ∨ cD = 4) :
    (∀ tag ∈ renderSceneTextureTags,
      0 ≤ FindTextureSlot
        (PrepareSceneTextures (ImageResult.ok cM) (ImageResult.ok cS)
          (ImageResult.ok cMe) (ImageResult.ok cD) idM idS idMe idD) tag) ∧
    (∀ tag ∈ renderSceneMaterialTags,
      ∃ r ∈ DefineObjectMaterials, r.tag = tag) := by
  constructor
  · rw [prepareSceneTextures_ok cM cS cMe cD idM idS idMe idD h1 h2 h3 h4,
      renderSceneTextureTags_eq]
    intro tag htag
    simp only [List.mem_cons, List.not_mem_nil, or_false] at htag
    rcases htag with rfl | rfl | rfl | rfl
    · rw [findTextureSlot_eq_of_first (preparedRegistry idM idS idMe idD)
        "desk" 3 (by simp [preparedRegistry]) rfl
        (by intro j hj; interval_cases j <;> simp [preparedRegistry])]
      norm_num
    · rw [findTextureSlot_eq_of_first (preparedRegistry idM idS idMe idD)
        "monitor" 0 (by simp [preparedRegistry]) rfl
        (by intro j hj; omega)]
      norm_num
    · rw [findTextureSlot_eq_of_first (preparedRegistry idM idS idMe idD)
        "metal" 2 (by simp [preparedRegistry]) rfl
        (by intro j hj; interval_cases j <;> simp [preparedRegistry])]
      norm_num
    · rw [findTextureSlot_eq_of_first (preparedRegistry idM idS idMe idD)
        "screen" 1 (by simp [preparedRegistry]) rfl
        (by intro j hj; interval_cases j <;> simp [preparedRegistry])]
      norm_num
  · rw [renderSceneMaterialTags_eq]
    intro tag htag
    simp only [List.mem_cons, List.not_mem_nil, or_false] at htag
    rcases htag with rfl | rfl | rfl | rfl | rfl | rfl | rfl | rfl | rfl |
      rfl | rfl | rfl
    · exact ⟨woodMaterial, by simp [DefineObjectMaterials], rfl⟩
    · exact ⟨mattePlasticMaterial, by simp [DefineObjectMaterials], rfl⟩
    · exact ⟨metalMaterial, by simp [DefineObjectMaterials], rfl⟩
    · exact ⟨metalMaterial, by simp [DefineObjectMaterials], rfl⟩
    · exact ⟨glossyMaterial, by simp [DefineObjectMaterials], rfl⟩
    · exact ⟨mattePlasticMaterial, by simp [DefineObjectMaterials], rfl⟩
    · exact ⟨metalMaterial, by simp [DefineObjectMaterials], rfl⟩
    · exact ⟨metalMaterial, by simp [DefineObjectMaterials], rfl⟩
    · exact ⟨mattePlasticMaterial, by simp [DefineObjectMaterials], rfl⟩
    · exact ⟨glossyMaterial, by simp [DefineObjectMaterials], rfl⟩
    · exact ⟨ceramicMaterial, by simp [DefineObjectMaterials], rfl⟩
    · exact ⟨ceramicMaterial, by simp [DefineObjectMaterials], rfl⟩

/-- Claim C7 witness: with four 3-channel decodes and concrete handles, all
scene-script texture tags resolve to non-negative slots and all material
tags are defined. -/
theorem c7_renderScene_tags_registered_witness :
    (∀ tag ∈ renderSceneTextureTags,
      0 ≤ FindTextureSlot
        (PrepareSceneTextures (ImageResult.ok 3) (ImageResult.ok 3)
          (ImageResult.ok 3) (ImageResult.ok 3) 10 11 12 13) tag) ∧
    (∀ tag ∈ renderSceneMaterialTags,
      ∃ r ∈ DefineObjectMaterials, r.tag = tag) :=
  c7_renderScene_tags_registered 3 3 3 3 10 11 12 13 (Or.inl rfl)
    (Or.inl rfl) (Or.inl rfl) (Or.inl rfl)

end SceneManager
